import Mathlib

deriving instance DecidableEq for Except

set_option maxRecDepth 40000

/-!
Shallow embedding of the LS-8 emulator in `cpu.py` (class `CPU`).

Memory and the register file are Python lists of unbounded integers; Python
list indexing is modelled exactly (negative indices alias `i + len`, anything
outside `[-len, len)` raises `IndexError`).  The flag store is the dict
`self.flag`, which only ever holds the keys `"L"`, `"G"`, `"E"`; it is
modelled as a record of three `Option Int` fields, `none` meaning the key is
absent (reading an absent key raises `KeyError`).  `sys.exit(code)` after a
`print(msg)` is modelled by the `exited` result carrying the code and the
message.  One iteration of the `while True` loop in `CPU.run` is `step`;
`run` iterates `step` with explicit fuel.
-/

namespace Ls8

/-- Python runtime errors that the emulator code can raise:
list `IndexError`, dict `KeyError`, `ZeroDivisionError`, and a plain
`raise Exception(msg)`. -/
inductive PyErr where
  | indexError
  | keyError (k : String)
  | zeroDivision
  | exn (msg : String)
deriving DecidableEq, Repr

/-- Python list index resolution for a list of length `n`: indices in
`[0, n)` are used as is, indices in `[-n, 0)` alias `i + n`, anything else
is invalid (`IndexError`). -/
def pyIdx (n : Nat) (i : Int) : Option Nat :=
  if 0 ≤ i then
    if i < (n : Int) then some i.toNat else none
  else
    if -(n : Int) ≤ i then some (i + n).toNat else none

/-- Python `l[i]` on a list of integers. -/
def pyGet (l : List Int) (i : Int) : Except PyErr Int :=
  match pyIdx l.length i with
  | some k => .ok (l.getD k 0)
  | none => .error .indexError

/-- Python `l[i] = v` on a list of integers. -/
def pySet (l : List Int) (i : Int) (v : Int) : Except PyErr (List Int) :=
  match pyIdx l.length i with
  | some k => .ok (l.set k v)
  | none => .error .indexError

/-- Opcode `LDI = 0b10000010`. -/
def LDI : Int := 0b10000010
/-- Opcode `PRN = 0b01000111`. -/
def PRN : Int := 0b01000111
/-- Opcode `HLT = 0b00000001`. -/
def HLT : Int := 0b00000001
/-- Opcode `MUL = 0b10100010`. -/
def MUL : Int := 0b10100010
/-- Opcode `PUSH = 0b01000101`. -/
def PUSH : Int := 0b01000101
/-- Opcode `POP = 0b01000110`. -/
def POP : Int := 0b01000110
/-- Opcode `RET = 0b00010001`. -/
def RET : Int := 0b00010001
/-- Opcode `CALL = 0b01010000`. -/
def CALL : Int := 0b01010000
/-- Opcode `JEQ = 0b01010101`. -/
def JEQ : Int := 0b01010101
/-- Opcode `CMP = 0b10100111`. -/
def CMP : Int := 0b10100111
/-- Opcode `JMP = 0b01010100`. -/
def JMP : Int := 0b01010100
/-- Opcode `JNE = 0b01010110`. -/
def JNE : Int := 0b01010110

/-- `SP = 7`, the stack pointer is register 7. -/
def SP : Int := 7

/-- The dict `self.flag`.  The source only ever stores the keys `"L"`,
`"G"`, `"E"`; a field being `none` models the key being absent. -/
structure Flags where
  L : Option Int
  G : Option Int
  E : Option Int
deriving DecidableEq, Repr

/-- The mutable state of a `CPU` instance: `self.reg`, `self.ram`,
`self.pc`, `self.flag`, plus `out`, the list of integers printed by `PRN`
(modelling stdout). -/
structure CPU where
  reg : List Int
  ram : List Int
  pc : Int
  flag : Flags
  out : List Int
deriving DecidableEq, Repr

/-- `CPU.__init__`: 8 zeroed registers, 256 zeroed memory cells, `pc = 0`,
empty flag dict. -/
def CPU.init : CPU :=
  { reg := List.replicate 8 0
    ram := List.replicate 256 0
    pc := 0
    flag := { L := none, G := none, E := none }
    out := [] }

/-- `CPU.ram_read(self, mar)`: `return self.ram[mar]`. -/
def ram_read (ram : List Int) (mar : Int) : Except PyErr Int :=
  pyGet ram mar

/-- `CPU.ram_write(self, mdr, mar)`: `self.ram[mar] = mdr`.  Note the
parameter order: the value (`mdr`) comes first, the address (`mar`)
second. -/
def ram_write (ram : List Int) (mdr : Int) (mar : Int) : Except PyErr (List Int) :=
  pySet ram mar mdr

/-- `CPU.alu(self, op, reg_a, reg_b)`.  Register values are modelled as
integers; the `DIV` branch of the source uses Python true division
(producing a float), which is outside the integer value model — it is
rendered here as integer division guarded by `ZeroDivisionError`, and no
claim (and no call site in `run`) exercises it. -/
def alu (s : CPU) (op : String) (reg_a reg_b : Int) : Except PyErr CPU :=
  if op = "ADD" then do
    let va ← pyGet s.reg reg_a
    let vb ← pyGet s.reg reg_b
    let r ← pySet s.reg reg_a (va + vb)
    pure { s with reg := r }
  else if op = "SUB" then do
    let va ← pyGet s.reg reg_a
    let vb ← pyGet s.reg reg_b
    let r ← pySet s.reg reg_a (va - vb)
    pure { s with reg := r }
  else if op = "MUL" then do
    let va ← pyGet s.reg reg_a
    let vb ← pyGet s.reg reg_b
    let r ← pySet s.reg reg_a (va * vb)
    pure { s with reg := r }
  else if op = "DIV" then do
    let va ← pyGet s.reg reg_a
    let vb ← pyGet s.reg reg_b
    if vb = 0 then .error .zeroDivision
    else do
      let r ← pySet s.reg reg_a (va / vb)
      pure { s with reg := r }
  else if op = "CMP" then do
    let va ← pyGet s.reg reg_a
    let vb ← pyGet s.reg reg_b
    pure { s with flag :=
      { L := some (if va < vb then 1 else 0)
        G := some (if vb < va then 1 else 0)
        E := some (if va = vb then 1 else 0) } }
  else .error (.exn "Unsupported ALU operation")

/-- Result of one iteration of the `while True` loop in `CPU.run`:
either the loop continues with a new state, or the process exits
(`sys.exit(code)` preceded by `print(msg)`), or an uncaught Python
exception terminates the run. -/
inductive StepResult where
  | ok (s : CPU)
  | exited (code : Nat) (msg : String)
  | err (e : PyErr)
deriving DecidableEq, Repr

/-- One iteration of the loop body of `CPU.run`, in the Except monad. -/
def stepE (s : CPU) : Except PyErr StepResult := do
  let op ← ram_read s.ram s.pc
  if op = LDI then do
    let index ← pyGet s.ram (s.pc + 1)
    let value ← pyGet s.ram (s.pc + 2)
    let r ← pySet s.reg index value
    pure (.ok { s with reg := r, pc := s.pc + 3 })
  else if op = PRN then do
    let index ← pyGet s.ram (s.pc + 1)
    let v ← pyGet s.reg index
    pure (.ok { s with out := s.out ++ [v], pc := s.pc + 2 })
  else if op = MUL then do
    let reg_a ← ram_read s.ram (s.pc + 1)
    let reg_b ← ram_read s.ram (s.pc + 2)
    let s1 ← alu s "MUL" reg_a reg_b
    pure (.ok { s1 with pc := s1.pc + 3 })
  else if op = POP then do
    let sp ← pyGet s.reg SP
    let stack_val ← ram_read s.ram sp
    let reg_num ← ram_read s.ram (s.pc + 1)
    let r ← pySet s.reg reg_num stack_val
    let sp2 ← pyGet r SP
    let r2 ← pySet r SP (sp2 + 1)
    pure (.ok { s with reg := r2, pc := s.pc + 2 })
  else if op = PUSH then do
    let sp ← pyGet s.reg SP
    let r ← pySet s.reg SP (sp - 1)
    let stack_addr ← pyGet r SP
    let reg_num ← ram_read s.ram (s.pc + 1)
    let val ← pyGet r reg_num
    let ram2 ← ram_write s.ram stack_addr val
    pure (.ok { s with reg := r, ram := ram2, pc := s.pc + 2 })
  else if op = CALL then do
    let sp ← pyGet s.reg SP
    let r ← pySet s.reg SP (sp - 1)
    let stack_addr ← pyGet r SP
    let return_addr := s.pc + 2
    let ram2 ← ram_write s.ram stack_addr return_addr
    let reg_num ← ram_read ram2 (s.pc + 1)
    let target ← pyGet r reg_num
    pure (.ok { s with reg := r, ram := ram2, pc := target })
  else if op = RET then do
    let sp ← pyGet s.reg SP
    let v ← ram_read s.ram sp
    let r ← pySet s.reg SP (sp + 1)
    pure (.ok { s with pc := v, reg := r })
  else if op = CMP then do
    let reg_a ← ram_read s.ram (s.pc + 1)
    let reg_b ← ram_read s.ram (s.pc + 2)
    let s1 ← alu s "CMP" reg_a reg_b
    pure (.ok { s1 with pc := s1.pc + 3 })
  else if op = JMP then do
    let reg_a ← ram_read s.ram (s.pc + 1)
    let t ← pyGet s.reg reg_a
    pure (.ok { s with pc := t })
  else if op = JNE then do
    let reg_a ← ram_read s.ram (s.pc + 1)
    match s.flag.E with
    | none => throw (.keyError "E")
    | some e =>
      if e = 0 then do
        let t ← pyGet s.reg reg_a
        pure (.ok { s with pc := t })
      else
        pure (.ok { s with pc := s.pc + 2 })
  else if op = JEQ then do
    let reg_a ← ram_read s.ram (s.pc + 1)
    match s.flag.E with
    | none => throw (.keyError "E")
    | some e =>
      if e = 1 then do
        let t ← pyGet s.reg reg_a
        pure (.ok { s with pc := t })
      else
        pure (.ok { s with pc := s.pc + 2 })
  else if op = HLT then
    pure (.exited 0 "Exiting...")
  else
    pure (.exited 1 "ERROR: Unknown command")

/-- One iteration of the loop body of `CPU.run`; an uncaught Python
exception becomes `StepResult.err`. -/
def step (s : CPU) : StepResult :=
  match stepE s with
  | .ok r => r
  | .error e => .err e

/-- `CPU.run`: the `while True` loop, iterated with explicit fuel; running
out of fuel returns the current (still running) state. -/
def run : Nat → CPU → StepResult
  | 0, s => .ok s
  | n + 1, s =>
    match step s with
    | .ok s1 => run n s1
    | r => r

/-- Projection of a step result back to a running state, for chaining
concrete executions. -/
def StepResult.getOk : StepResult → Option CPU
  | .ok s => some s
  | _ => none

/-- One loop iteration as a partial state transformer. -/
def stepOk (s : CPU) : Option CPU :=
  (step s).getOk

/-- Builds a state from `CPU.init` by overwriting the listed registers and
memory cells. -/
def mkCPU (regs : List (Nat × Int)) (cells : List (Nat × Int)) : CPU :=
  { CPU.init with
      reg := regs.foldl (fun l p => l.set p.1 p.2) CPU.init.reg
      ram := cells.foldl (fun l p => l.set p.1 p.2) CPU.init.ram }

/-- State for C1: `PUSH R0` at address 0, `reg[0] = 5`, `reg[7] = 100`. -/
def c1s : CPU := mkCPU [(0, 5), (7, 100)] [(0, PUSH), (1, 0)]

/-- State for C2: `CALL R0` at address 0, `reg[0] = 10`, `RET` at address
10, `reg[7] = 100`. -/
def c2s : CPU := mkCPU [(0, 10), (7, 100)] [(0, CALL), (1, 0), (10, RET)]

/-- State for C3: `PUSH R0; POP R1` starting at address 0, `reg[0] = 5`,
`reg[7] = 100`. -/
def c3s : CPU := mkCPU [(0, 5), (7, 100)] [(0, PUSH), (1, 0), (2, POP), (3, 1)]

/-- State for C6: unknown opcode 99 at `pc = 0`. -/
def c6s1 : CPU := mkCPU [] [(0, 99)]

/-- Second state for C6: unknown opcode 123 at `pc = 1`. -/
def c6s2 : CPU := { mkCPU [] [(1, 123)] with pc := 1 }

/-- State for the C7 witness: `JEQ R0` at address 0, flag dict still
empty. -/
def c7s : CPU := mkCPU [] [(0, JEQ), (1, 0)]

/-- State for the C9 counterexample and witness: `reg[0] = 2`. -/
def c9s : CPU := mkCPU [(0, 2)] []

/-- State for the C5 witness: `JEQ R0` at address 0 with `reg[0] = 42` and
the Equal flag set (as after comparing equal values). -/
def c5s : CPU :=
  { mkCPU [(0, 42)] [(0, JEQ), (1, 0)] with
      flag := { L := some 0, G := some 0, E := some 1 } }

/-- State for the C4 witness: `reg[0] = 3`, `reg[1] = 4`. -/
def c4s : CPU := mkCPU [(0, 3), (1, 4)] []

/-- Whether the string `pat` occurs as a contiguous substring of `msg`. -/
def strOccurs (pat msg : String) : Bool :=
  (List.range (msg.data.length + 1)).any
    (fun i => (msg.data.drop i).take pat.data.length = pat.data)

/-- Holds when an intermediate result is not a `raise Exception` error. -/
def noExn : Except PyErr α → Prop
  | .error (.exn _) => False
  | _ => True

/-- Holds when a step result is not an uncaught `raise Exception`. -/
def safeR : StepResult → Prop
  | .err (.exn _) => False
  | _ => True

/-- Holds when an `Except`-level step result neither is a `raise Exception`
error nor wraps an `err` step result. -/
def safeE (x : Except PyErr StepResult) : Prop :=
  noExn x ∧ ∀ e, x ≠ .ok (.err e)

/-!
Helper lemmas, shared by the claim theorems below.
-/

theorem ok_bind (a : α) (f : α → Except PyErr β) :
    (Except.ok a : Except PyErr α) >>= f = f a := rfl

theorem error_bind {α β : Type} (e : PyErr) (f : α → Except PyErr β) :
    (Except.error e : Except PyErr α) >>= f = .error e := rfl

theorem step_eq_of_stepE (s : CPU) (r : StepResult) (h : stepE s = .ok r) :
    step s = r := by
  unfold step; rw [h]

theorem alu_cmp_eq (s : CPU) (a b x y : Int)
    (hx : pyGet s.reg a = .ok x) (hy : pyGet s.reg b = .ok y) :
    alu s "CMP" a b = .ok { s with flag :=
      { L := some (if x < y then 1 else 0)
        G := some (if y < x then 1 else 0)
        E := some (if x = y then 1 else 0) } } := by
  simp [alu, hx, hy, ok_bind]

theorem alu_mul_eq (s : CPU) (a b x y : Int) (r : List Int)
    (hx : pyGet s.reg a = .ok x) (hy : pyGet s.reg b = .ok y)
    (hr : pySet s.reg a (x * y) = .ok r) :
    alu s "MUL" a b = .ok { s with reg := r } := by
  simp [alu, hx, hy, hr, ok_bind]

theorem pyIdx_natCast {n : Nat} (k : Nat) (hk : k < n) : pyIdx n (k : Int) = some k := by
  unfold pyIdx
  rw [if_pos (Int.natCast_nonneg k), if_pos (by exact_mod_cast hk)]
  simp

theorem pyGet_natCast {l : List Int} {k : Nat} (hk : k < l.length) :
    pyGet l (k : Int) = .ok (l.getD k 0) := by
  unfold pyGet; rw [pyIdx_natCast k hk]

theorem pySet_natCast {l : List Int} {k : Nat} (hk : k < l.length) (v : Int) :
    pySet l (k : Int) v = .ok (l.set k v) := by
  unfold pySet; rw [pyIdx_natCast k hk]

theorem noExn_bind {α β : Type} {x : Except PyErr α} {f : α → Except PyErr β}
    (hx : noExn x) (hf : ∀ a, noExn (f a)) : noExn (x >>= f) := by
  cases x with
  | error e => rw [error_bind]; cases e <;> exact hx
  | ok a => exact hf a

theorem noExn_pure {α : Type} (a : α) : noExn (pure a : Except PyErr α) := trivial

theorem noExn_pyGet (l : List Int) (i : Int) : noExn (pyGet l i) := by
  unfold pyGet; cases pyIdx l.length i <;> trivial

theorem noExn_pySet (l : List Int) (i v : Int) : noExn (pySet l i v) := by
  unfold pySet; cases pyIdx l.length i <;> trivial

theorem noExn_ram_read (ram : List Int) (mar : Int) : noExn (ram_read ram mar) :=
  noExn_pyGet ram mar

theorem noExn_ram_write (ram : List Int) (mdr mar : Int) : noExn (ram_write ram mdr mar) :=
  noExn_pySet ram mar mdr

theorem noExn_alu_mul (s : CPU) (a b : Int) : noExn (alu s "MUL" a b) := by
  unfold alu
  rw [if_neg (by decide), if_neg (by decide), if_pos rfl]
  exact noExn_bind (noExn_pyGet _ _) fun va =>
    noExn_bind (noExn_pyGet _ _) fun vb =>
      noExn_bind (noExn_pySet _ _ _) fun r => noExn_pure _

theorem noExn_alu_cmp (s : CPU) (a b : Int) : noExn (alu s "CMP" a b) := by
  unfold alu
  rw [if_neg (by decide), if_neg (by decide), if_neg (by decide), if_neg (by decide),
    if_pos rfl]
  exact noExn_bind (noExn_pyGet _ _) fun va =>
    noExn_bind (noExn_pyGet _ _) fun vb => noExn_pure _

theorem safeE_bind {α : Type} {x : Except PyErr α} {f : α → Except PyErr StepResult}
    (hx : noExn x) (hf : ∀ a, safeE (f a)) : safeE (x >>= f) := by
  cases x with
  | error e =>
    rw [error_bind]
    refine ⟨?_, by intro a h; exact Except.noConfusion h⟩
    cases e <;> exact hx
  | ok a => exact hf a

theorem safeE_ite {c : Prop} [Decidable c] {x y : Except PyErr StepResult}
    (hx : safeE x) (hy : safeE y) : safeE (if c then x else y) := by
  split <;> assumption

theorem safeE_pure_ok (s : CPU) : safeE (pure (.ok s) : Except PyErr StepResult) :=
  ⟨trivial, by intro e h; injection h with h1; exact StepResult.noConfusion h1⟩

theorem safeE_pure_exited (c : Nat) (m : String) :
    safeE (pure (.exited c m) : Except PyErr StepResult) :=
  ⟨trivial, by intro e h; injection h with h1; exact StepResult.noConfusion h1⟩

theorem safeE_throw_keyError (k : String) :
    safeE (throw (.keyError k) : Except PyErr StepResult) :=
  ⟨trivial, by intro e h; exact Except.noConfusion h⟩

theorem safeE_stepE (s : CPU) : safeE (stepE s) := by
  unfold stepE
  refine safeE_bind (noExn_ram_read _ _) fun op => ?_
  refine safeE_ite ?_ ?_
  · exact safeE_bind (noExn_pyGet _ _) fun index =>
      safeE_bind (noExn_pyGet _ _) fun value =>
        safeE_bind (noExn_pySet _ _ _) fun r => safeE_pure_ok _
  refine safeE_ite ?_ ?_
  · exact safeE_bind (noExn_pyGet _ _) fun index =>
      safeE_bind (noExn_pyGet _ _) fun v => safeE_pure_ok _
  refine safeE_ite ?_ ?_
  · exact safeE_bind (noExn_ram_read _ _) fun reg_a =>
      safeE_bind (noExn_ram_read _ _) fun reg_b =>
        safeE_bind (noExn_alu_mul _ _ _) fun s1 => safeE_pure_ok _
  refine safeE_ite ?_ ?_
  · exact safeE_bind (noExn_pyGet _ _) fun sp =>
      safeE_bind (noExn_ram_read _ _) fun stack_val =>
        safeE_bind (noExn_ram_read _ _) fun reg_num =>
          safeE_bind (noExn_pySet _ _ _) fun r =>
            safeE_bind (noExn_pyGet _ _) fun sp2 =>
              safeE_bind (noExn_pySet _ _ _) fun r2 => safeE_pure_ok _
  refine safeE_ite ?_ ?_
  · exact safeE_bind (noExn_pyGet _ _) fun sp =>
      safeE_bind (noExn_pySet _ _ _) fun r =>
        safeE_bind (noExn_pyGet _ _) fun stack_addr =>
          safeE_bind (noExn_ram_read _ _) fun reg_num =>
            safeE_bind (noExn_pyGet _ _) fun val =>
              safeE_bind (noExn_ram_write _ _ _) fun ram2 => safeE_pure_ok _
  refine safeE_ite ?_ ?_
  · exact safeE_bind (noExn_pyGet _ _) fun sp =>
      safeE_bind (noExn_pySet _ _ _) fun r =>
        safeE_bind (noExn_pyGet _ _) fun stack_addr =>
          safeE_bind (noExn_ram_write _ _ _) fun ram2 =>
            safeE_bind (noExn_ram_read _ _) fun reg_num =>
              safeE_bind (noExn_pyGet _ _) fun target => safeE_pure_ok _
  refine safeE_ite ?_ ?_
  · exact safeE_bind (noExn_pyGet _ _) fun sp =>
      safeE_bind (noExn_ram_read _ _) fun v =>
        safeE_bind (noExn_pySet _ _ _) fun r => safeE_pure_ok _
  refine safeE_ite ?_ ?_
  · exact safeE_bind (noExn_ram_read _ _) fun reg_a =>
      safeE_bind (noExn_ram_read _ _) fun reg_b =>
        safeE_bind (noExn_alu_cmp _ _ _) fun s1 => safeE_pure_ok _
  refine safeE_ite ?_ ?_
  · exact safeE_bind (noExn_ram_read _ _) fun reg_a =>
      safeE_bind (noExn_pyGet _ _) fun t => safeE_pure_ok _
  refine safeE_ite ?_ ?_
  · refine safeE_bind (noExn_ram_read _ _) fun reg_a => ?_
    cases s.flag.E with
    | none => exact safeE_throw_keyError _
    | some e =>
      exact safeE_ite
        (safeE_bind (noExn_pyGet _ _) fun t => safeE_pure_ok _)
        (safeE_pure_ok _)
  refine safeE_ite ?_ ?_
  · refine safeE_bind (noExn_ram_read _ _) fun reg_a => ?_
    cases s.flag.E with
    | none => exact safeE_throw_keyError _
    | some e =>
      exact safeE_ite
        (safeE_bind (noExn_pyGet _ _) fun t => safeE_pure_ok _)
        (safeE_pure_ok _)
  exact safeE_ite (safeE_pure_exited _ _) (safeE_pure_exited _ _)

theorem safeR_step (s : CPU) : safeR (step s) := by
  have h := safeE_stepE s
  unfold step
  cases hs : stepE s with
  | ok r =>
    rw [hs] at h
    cases r with
    | err e => exact absurd rfl (h.2 e)
    | ok s1 => trivial
    | exited c m => trivial
  | error e =>
    rw [hs] at h
    cases e with
    | exn m => exact h.1
    | indexError => trivial
    | keyError k => trivial
    | zeroDivision => trivial

/-!
Claim theorems.
-/

/-- C1: on `c1s` (`PUSH R0` with `reg[0] = 5`, `reg[7] = 100`), the
executed PUSH decrements `reg[7]` to 99 and advances `pc` to 2, but it does
NOT write `reg[0] = 5` to the new stack address 99: `ram[99]` stays 0 while
the stack address 99 is written into `ram[5]` — the call
`ram_write(stack_addr, val)` passes the address as `mdr` (the value slot)
and the value as `mar` (the address slot), swapping the documented
parameter order of `ram_write`.  This refutes the claimed
`Memory[SP] = reg[r]` effect. -/
theorem c1_push_swapped_write :
    (stepOk c1s).map (fun s => (s.reg.getD 7 0, s.ram.getD 99 0, s.ram.getD 5 0, s.pc))
        = some (99, 0, 99, 2)
      ∧ c1s.reg.getD 0 0 = 5 := by
  constructor <;> rfl

/-- C2: on `c2s` (`CALL R0` at 0 with `reg[0] = 10`, `RET` at 10,
`reg[7] = 100`), CALL decrements SP to 99 and jumps to 10, but writes the
stack address 99 into `ram[2]` (the cell right after the CALL instruction)
and leaves `ram[99] = 0`; the subsequent RET, executed at that same stack
height, therefore pops the stale 0 into `pc` instead of the return address
`call_site + 2 = 2`. -/
theorem c2_call_ret_wrong_pc :
    ((stepOk c2s).map fun s => (s.pc, s.reg.getD 7 0, s.ram.getD 2 0, s.ram.getD 99 0))
        = some (10, 99, 99, 0)
      ∧ ((stepOk c2s >>= stepOk).map fun s => (s.pc, s.reg.getD 7 0)) = some (0, 100) := by
  constructor <;> rfl

/-- C3: on `c3s` (`PUSH R0` then `POP R1` with `reg[0] = 5`,
`reg[7] = 100`), the pop restores the stack pointer to 100 but loads the
stale memory value 0 into `reg[1]` instead of the pushed value 5, because
the push stored the stack address into `ram[5]` rather than the value 5
into `ram[99]`. -/
theorem c3_push_pop_loses_value :
    ((stepOk c3s >>= stepOk).map fun s => (s.reg.getD 1 0, s.reg.getD 7 0, s.pc))
        = some (0, 100, 4)
      ∧ c3s.reg.getD 0 0 = 5 := by
  constructor <;> rfl

/-- C4: for all register values `x = reg[a]` and `y = reg[b]`, after the
ALU CMP operation exactly one of the flags L, G, E equals 1 (the other two
equal 0), with E = 1 iff `x = y`, L = 1 iff `x < y`, and G = 1 iff
`x > y`. -/
theorem c4_cmp_flags (s : CPU) (a b x y : Int)
    (hx : pyGet s.reg a = .ok x) (hy : pyGet s.reg b = .ok y) :
    ∃ s1, alu s "CMP" a b = .ok s1
      ∧ (s1.flag.E = some 1 ↔ x = y)
      ∧ (s1.flag.L = some 1 ↔ x < y)
      ∧ (s1.flag.G = some 1 ↔ y < x)
      ∧ ((s1.flag.L = some 1 ∧ s1.flag.G = some 0 ∧ s1.flag.E = some 0)
        ∨ (s1.flag.L = some 0 ∧ s1.flag.G = some 1 ∧ s1.flag.E = some 0)
        ∨ (s1.flag.L = some 0 ∧ s1.flag.G = some 0 ∧ s1.flag.E = some 1)) := by
  refine ⟨_, alu_cmp_eq s a b x y hx hy, ?_, ?_, ?_, ?_⟩ <;>
    rcases lt_trichotomy x y with h | h | h <;>
      first
        | (subst h; simp)
        | simp [h, h.ne, h.ne', lt_asymm h]

/-- C4 witness: comparing `reg[0] = 3` and `reg[1] = 4` on `c4s`. -/
theorem c4_cmp_flags_witness :
    ∃ s1, alu c4s "CMP" 0 1 = .ok s1
      ∧ (s1.flag.E = some 1 ↔ (3 : Int) = 4)
      ∧ (s1.flag.L = some 1 ↔ (3 : Int) < 4)
      ∧ (s1.flag.G = some 1 ↔ (4 : Int) < 3)
      ∧ ((s1.flag.L = some 1 ∧ s1.flag.G = some 0 ∧ s1.flag.E = some 0)
        ∨ (s1.flag.L = some 0 ∧ s1.flag.G = some 1 ∧ s1.flag.E = some 0)
        ∨ (s1.flag.L = some 0 ∧ s1.flag.G = some 0 ∧ s1.flag.E = some 1)) :=
  c4_cmp_flags c4s 0 1 3 4 (by rfl) (by rfl)

/-- C5: in a state whose Equal flag is defined (as after any CMP, so
`E = some e` with `e` being 0 or 1), an executed JEQ sets
`pc = reg[operand1]` exactly when `e = 1` and otherwise advances `pc` by 2,
and an executed JNE sets `pc = reg[operand1]` exactly when `e = 0` and
otherwise advances `pc` by 2. -/
theorem c5_jeq_jne (s : CPU) (e r t : Int)
    (hE : s.flag.E = some e) (he : e = 0 ∨ e = 1)
    (hr : ram_read s.ram (s.pc + 1) = .ok r)
    (ht : pyGet s.reg r = .ok t) :
    (ram_read s.ram s.pc = .ok JEQ →
      step s = .ok { s with pc := if e = 1 then t else s.pc + 2 })
    ∧ (ram_read s.ram s.pc = .ok JNE →
      step s = .ok { s with pc := if e = 0 then t else s.pc + 2 }) := by
  constructor <;> intro hop <;>
    refine step_eq_of_stepE s _ ?_ <;>
    rcases he with he | he <;>
    subst he <;>
    simp [stepE, hop, hr, ht, hE, ok_bind, LDI, PRN, MUL, POP, PUSH, CALL, RET, CMP,
      JMP, JNE, JEQ, HLT]

/-- C5 witness: on `c5s` (JEQ with the Equal flag set and `reg[0] = 42`),
the jump is taken to 42. -/
theorem c5_jeq_jne_witness :
    step c5s = .ok { c5s with pc := if (1 : Int) = 1 then 42 else c5s.pc + 2 } :=
  (c5_jeq_jne c5s 1 0 42 (by rfl) (Or.inr rfl) (by rfl) (by rfl)).1 (by rfl)

/-- C6 counterexample: two states with different unknown opcodes (99 at
pc 0, 123 at pc 1) both exit with status 1 and the identical fixed
diagnostic `ERROR: Unknown command`, which contains neither the offending
opcode value nor the program counter as a substring — indeed it contains no
digit at all.  So the diagnostic does not include the opcode and the pc,
refuting that part of the claim. -/
theorem c6_fixed_diagnostic :
    step c6s1 = .exited 1 "ERROR: Unknown command"
      ∧ step c6s2 = .exited 1 "ERROR: Unknown command"
      ∧ ram_read c6s1.ram c6s1.pc = .ok 99 ∧ c6s1.pc = 0
      ∧ ram_read c6s2.ram c6s2.pc = .ok 123 ∧ c6s2.pc = 1
      ∧ strOccurs "99" "ERROR: Unknown command" = false
      ∧ strOccurs "0" "ERROR: Unknown command" = false
      ∧ strOccurs "123" "ERROR: Unknown command" = false
      ∧ strOccurs "1" "ERROR: Unknown command" = false
      ∧ "ERROR: Unknown command".data.any Char.isDigit = false := by
  refine ⟨rfl, rfl, rfl, rfl, rfl, rfl, ?_, ?_, ?_, ?_, ?_⟩ <;> rfl

/-- C6 (amended): for every state in which the fetched byte at `pc` is not
one of the twelve opcodes of the instruction table, the step exits the
process with status 1 and the fixed diagnostic `ERROR: Unknown command`
(which names neither the opcode nor the pc). -/
theorem c6_unknown_opcode (s : CPU) (op : Int)
    (hop : ram_read s.ram s.pc = .ok op)
    (h : op ∉ [LDI, PRN, MUL, POP, PUSH, CALL, RET, CMP, JMP, JNE, JEQ, HLT]) :
    step s = .exited 1 "ERROR: Unknown command" := by
  simp only [List.mem_cons, List.not_mem_nil, or_false, not_or] at h
  obtain ⟨h1, h2, h3, h4, h5, h6, h7, h8, h9, h10, h11, h12⟩ := h
  refine step_eq_of_stepE s _ ?_
  simp [stepE, hop, ok_bind, h1, h2, h3, h4, h5, h6, h7, h8, h9, h10, h11, h12, pure,
    Except.pure]

/-- C6 witness: the unknown opcode 99 at pc 0 exits with status 1 and the
fixed diagnostic. -/
theorem c6_unknown_opcode_witness :
    step c6s1 = .exited 1 "ERROR: Unknown command" :=
  c6_unknown_opcode c6s1 99 (by rfl) (by decide)

/-- C7: the flag store created by `CPU.__init__` is empty (all three keys
absent), and executing JEQ or JNE in any state whose Equal flag is still
absent raises an uncaught `KeyError` for the key `E` instead of reading a
defined boolean value. -/
theorem c7_query_absent_flag (s : CPU) (op r : Int)
    (hop : ram_read s.ram s.pc = .ok op)
    (hJ : op = JEQ ∨ op = JNE)
    (hr : ram_read s.ram (s.pc + 1) = .ok r)
    (hE : s.flag.E = none) :
    CPU.init.flag = { L := none, G := none, E := none }
      ∧ step s = .err (.keyError "E") := by
  refine ⟨rfl, ?_⟩
  unfold step
  rcases hJ with h | h <;> subst h <;>
    simp [stepE, hop, hr, hE, ok_bind, LDI, PRN, MUL, POP, PUSH, CALL, RET, CMP,
      JMP, JNE, JEQ, HLT, throw, throwThe, MonadExceptOf.throw]

/-- C7 witness: JEQ at pc 0 on the freshly constructed flag store raises
`KeyError` for `E`. -/
theorem c7_query_absent_flag_witness :
    CPU.init.flag = { L := none, G := none, E := none }
      ∧ step c7s = .err (.keyError "E") :=
  c7_query_absent_flag c7s JEQ 0 (by rfl) (Or.inl rfl) (by rfl) (by rfl)

/-- C8: no execution of `run`, from any state and with any amount of fuel,
ever ends in the uncaught `Exception("Unsupported ALU operation")` of the
final else branch of `alu`: `run` invokes `alu` only with the operation
names `MUL` and `CMP`, which the ALU handles, so that branch is unreachable
from the execution engine. -/
theorem c8_no_unsupported_alu (n : Nat) (s : CPU) :
    run n s ≠ .err (.exn "Unsupported ALU operation") := by
  induction n generalizing s with
  | zero => simp [run]
  | succ n ih =>
    cases hstep : step s with
    | ok s1 => simpa [run, hstep] using ih s1
    | exited c m => simp [run, hstep]
    | err e =>
      simp only [run, hstep]
      intro hcontra
      injection hcontra with h1
      rw [h1] at hstep
      have hsafe := safeR_step s
      rw [hstep] at hsafe
      exact hsafe

/-- C9 counterexample: with `reg[0] = 2`, `alu "MUL" 0 0` (register indices
a = b = 0) leaves `reg[0] = 4`: the product is written to `reg[a]`, but
`reg[b]` — the same register — does not keep its pre-operation value 2, so
the claimed conjunct that `reg[b]` is unchanged fails for a = b. -/
theorem c9_mul_same_register :
    ((alu c9s "MUL" 0 0).toOption.map fun s => s.reg.getD 0 0) = some 4
      ∧ c9s.reg.getD 0 0 = 2 := by
  constructor <;> rfl

/-- C9 (amended): for all register indices a and b, ALU MUL writes the
product of the pre-operation values `reg[a] * reg[b]` into `reg[a]`; every
register other than `reg[a]` — in particular `reg[b]` whenever `b ≠ a` —
keeps its value, the register file keeps its length, and the memory, the
pc, the flags and the output are untouched (the result state differs from
the input state only in its `reg` field). -/
theorem c9_mul_frame (s : CPU) (a b : Nat)
    (ha : a < 8) (hb : b < 8) (hlen : s.reg.length = 8) :
    ∃ r, alu s "MUL" (a : Int) (b : Int) = .ok { s with reg := r }
      ∧ r.getD a 0 = s.reg.getD a 0 * s.reg.getD b 0
      ∧ (a ≠ b → r.getD b 0 = s.reg.getD b 0)
      ∧ (∀ i : Nat, i ≠ a → r.getD i 0 = s.reg.getD i 0)
      ∧ r.length = s.reg.length := by
  have ha1 : a < s.reg.length := by omega
  have hb1 : b < s.reg.length := by omega
  refine ⟨s.reg.set a (s.reg.getD a 0 * s.reg.getD b 0),
    alu_mul_eq s a b _ _ _ (pyGet_natCast ha1) (pyGet_natCast hb1) (pySet_natCast ha1 _),
    ?_, ?_, ?_, ?_⟩
  · simp [List.getD_eq_getElem?_getD, List.getElem?_set_eq_of_lt _ ha1]
  · intro hne
    simp [List.getD_eq_getElem?_getD, List.getElem?_set_ne (by omega : a ≠ b)]
  · intro i hne
    simp [List.getD_eq_getElem?_getD, List.getElem?_set_ne (by omega : a ≠ i)]
  · simp

/-- C9 witness: MUL on registers 0 and 1 of `c9s` (`reg[0] = 2`,
`reg[1] = 0`). -/
theorem c9_mul_frame_witness :
    ∃ r, alu c9s "MUL" ((0 : Nat) : Int) ((1 : Nat) : Int) = .ok { c9s with reg := r }
      ∧ r.getD 0 0 = c9s.reg.getD 0 0 * c9s.reg.getD 1 0
      ∧ ((0 : Nat) ≠ 1 → r.getD 1 0 = c9s.reg.getD 1 0)
      ∧ (∀ i : Nat, i ≠ 0 → r.getD i 0 = c9s.reg.getD i 0)
      ∧ r.length = c9s.reg.length :=
  c9_mul_frame c9s 0 1 (by decide) (by decide) (by rfl)

/-- C10: on a 256-cell memory, `ram_read` and `ram_write` are total over
the negative addresses `-256` through `-1`, reading and writing the cell
`a + 256` without any out-of-range error; moreover register 7 of the
freshly constructed CPU reads as 0, and the first stack-pointer decrement
`0 - 1 = -1` resolves to cell 255. -/
theorem c10_negative_addressing (ram : List Int) (v a : Int)
    (hlen : ram.length = 256) (h1 : -256 ≤ a) (h2 : a < 0) :
    ram_read ram a = .ok (ram.getD (a + 256).toNat 0)
      ∧ ram_write ram v a = .ok (ram.set (a + 256).toNat v)
      ∧ pyGet CPU.init.reg SP = .ok 0
      ∧ pyIdx 256 (0 - 1) = some 255 := by
  have hidx : pyIdx ram.length a = some (a + 256).toNat := by
    unfold pyIdx
    rw [hlen]
    rw [if_neg (by omega), if_pos (by exact_mod_cast h1)]
    norm_num
  refine ⟨?_, ?_, by rfl, by rfl⟩
  · unfold ram_read pyGet; rw [hidx]
  · unfold ram_write pySet; rw [hidx]

/-- C10 witness: address -1 on the zeroed 256-cell memory aliases cell
255. -/
theorem c10_negative_addressing_witness :
    ram_read (List.replicate 256 0) (-1)
        = .ok ((List.replicate 256 0).getD ((-1) + 256).toNat 0)
      ∧ ram_write (List.replicate 256 0) 5 (-1)
        = .ok ((List.replicate 256 0).set ((-1) + 256).toNat 5)
      ∧ pyGet CPU.init.reg SP = .ok 0
      ∧ pyIdx 256 (0 - 1) = some 255 :=
  c10_negative_addressing (List.replicate 256 0) 5 (-1) (by simp) (by norm_num)
    (by norm_num)

end Ls8
